import Mathlib

/-!
A shallow embedding of the libsbai SmartBerry API client
(src/libsbapi/client.py) together with the composite-register helpers used
by the example scripts (src/examples/read_sensor.py,
src/examples/retractable.py).

The HTTP transport is an external collaborator of the core, so every
request of the embedding is parametrized over the response bytes the
transport delivers, and the frame that would be handed to the transport is
recorded in the call trace.  The random transaction id drawn by _add_mbap
is likewise passed in as a parameter.
-/

namespace SBAPI

/-- Modelled from the spec: `constants.py` is not among the sources; the
spec fixes the function codes in the wire layout (0x03 read, 0x10 write,
0x17 combined write-read). -/
def READ_HOLDING_REGISTERS : Nat := 0x03

/-- Modelled from the spec: write-multiple function code 0x10. -/
def WRITE_MULTIPLE_REGISTERS : Nat := 0x10

/-- Modelled from the spec: combined write-read function code 0x17. -/
def WRITE_READ_MULTIPLE_REGISTERS : Nat := 0x17

/-- Modelled from the spec: `constants.py` is not among the sources, so the
numeric error codes are modelled as distinct markers; the spec fixes only
the taxonomy (no error, network error, device exception). -/
def MB_NO_ERR : Nat := 0

/-- Modelled from the spec: marker recorded for any receive or framing
failure (a `NetworkError` of the taxonomy). -/
def MB_RECV_ERR : Nat := 4

/-- Modelled from the spec: marker recorded when the device reports a
protocol exception. -/
def MB_EXCEPT_ERR : Nat := 7

/-- Modelled from the spec: reset value of the last-exception field. -/
def EXP_NONE : Nat := 0

/-- Big-endian recombination of two bytes. -/
def be16 (hi lo : Nat) : Nat := 256 * hi + lo

/-- Big-endian 16-bit pack; every caller validates 0 ≤ v < 65536 first, as
the source pack call would fail outside that range. -/
def u16be (v : Nat) : List Nat := [v / 256, v % 256]

/-- Internal exceptions of the client (client.py:38-48). -/
inductive InternalError where
  | networkError (code : Nat) (message : String)
  | modbusExcept (code : Nat)
deriving DecidableEq

/-- Outcome of a Python call: either an uncaught ValueError or a returned
value. -/
inductive PyResult (α : Type) where
  | raised (msg : String)
  | returned (v : α)
deriving DecidableEq

/-- Mutable per-instance state of SBAPIClient (client.py:62-80); host,
port and timeout are omitted: the claims never read them and the modelled
operations never write them. -/
structure Client where
  unit_id : Nat
  last_error : Nat
  last_except : Nat
  transaction_id : Nat
  isread : Bool
deriving DecidableEq

/-- One public call: its outcome, the client state after the call, and the
frame handed to the transport (none when a ValueError fired before any
send). -/
structure CallTrace (α : Type) where
  result : PyResult α
  client : Client
  sent : Option (List Nat)
deriving DecidableEq

instance {ε α : Type} [DecidableEq ε] [DecidableEq α] : DecidableEq (Except ε α) :=
  fun a b =>
  match a, b with
  | .error e, .error f => decidable_of_iff (e = f) (by simp)
  | .error _, .ok _ => isFalse (by simp)
  | .ok _, .error _ => isFalse (by simp)
  | .ok v, .ok w => decidable_of_iff (v = w) (by simp)

/-- _recv (client.py:401-416): take `size` bytes from the buffered
response, failing when fewer are available. -/
def recv (buf : List Nat) (size : Nat) : Except InternalError (List Nat × List Nat) :=
  if buf.length < size then .error (.networkError MB_RECV_ERR ("recv error"))
  else .ok (buf.take size, buf.drop size)

/-- MBAP stage of _recv_pdu (client.py:430-447): read the 7-byte header,
check its fields, then read `length - 1` payload bytes.  The source also
compares the received transaction id against the stored one, but then
overwrites the resulting flag with False (client.py:435-436), so the
comparison never has an effect; the dead conjunct `∧ False` mirrors that. -/
def recv_frame (unit_id transaction_id : Nat) (buf : List Nat) :
    Except InternalError (List Nat) :=
  match recv buf 7 with
  | .error e => .error e
  | .ok (rx_mbap, rest) =>
    let f_transaction_id := be16 (rx_mbap.getD 0 0) (rx_mbap.getD 1 0)
    let f_protocol_id := be16 (rx_mbap.getD 2 0) (rx_mbap.getD 3 0)
    let f_length := be16 (rx_mbap.getD 4 0) (rx_mbap.getD 5 0)
    let f_unit_id := rx_mbap.getD 6 0
    if (f_transaction_id ≠ transaction_id ∧ False) ∨ f_protocol_id ≠ 0 ∨
        256 ≤ f_length ∨ f_unit_id ≠ unit_id then
      .error (.networkError MB_RECV_ERR ("MBAP checking error"))
    else
      match recv rest (f_length - 1) with
      | .error e => .error e
      | .ok (rx_pdu, _) => .ok rx_pdu

/-- PDU checks of _recv_pdu (client.py:450-464). -/
def recv_pdu (unit_id transaction_id : Nat) (buf : List Nat) (min_len : Nat) :
    Except InternalError (List Nat) :=
  match recv_frame unit_id transaction_id buf with
  | .error e => .error e
  | .ok rx_pdu =>
    if rx_pdu.length < 2 then .error (.networkError MB_RECV_ERR ("PDU length is too short"))
    else if 0x80 ≤ rx_pdu.getD 0 0 then .error (.modbusExcept (rx_pdu.getD 1 0))
    else if rx_pdu.length < min_len then
      .error (.networkError MB_RECV_ERR ("PDU length is too short for current request"))
    else .ok rx_pdu

/-- _add_mbap (client.py:466-480): 7-byte MBAP header followed by the PDU,
with the freshly drawn transaction id. -/
def mbap (transaction_id unit_id : Nat) (pdu : List Nat) : List Nat :=
  u16be transaction_id ++ u16be 0 ++ u16be (pdu.length + 1) ++ unit_id :: pdu

/-- _req_init (client.py:499-502). -/
def req_init (st : Client) : Client :=
  { st with last_error := MB_NO_ERR, last_except := EXP_NONE }

/-- _req_except_handler (client.py:504-514). -/
def req_except_handler (st : Client) : InternalError → Client
  | .networkError code _ => { st with last_error := code }
  | .modbusExcept code => { st with last_error := MB_EXCEPT_ERR, last_except := code }

/-- Argument checks of read_holding_registers (client.py:222-227); yields
the ValueError message of the first failing check. -/
def rhr_check (reg_addr reg_nb : Int) : Option String :=
  if ¬(0 ≤ reg_addr ∧ reg_addr ≤ 0xffff) then
    some ("reg_addr out of range (valid from 0 to 65535)")
  else if ¬(1 ≤ reg_nb ∧ reg_nb ≤ 125) then
    some ("reg_nb out of range (valid from 1 to 125)")
  else if 0x10000 < reg_addr + reg_nb then
    some ("read after end of modbus address space")
  else none

/-- Request PDU of read_holding_registers (client.py:232). -/
def rhr_pdu (reg_addr reg_nb : Nat) : List Nat :=
  READ_HOLDING_REGISTERS :: u16be reg_addr ++ u16be reg_nb

/-- read_holding_registers (client.py:211-251).  `new_tid` is the random
transaction id drawn in _add_mbap, `response` the bytes the transport
delivers. -/
def read_holding_registers (st : Client) (reg_addr reg_nb : Int) (unit_id new_tid : Nat)
    (response : List Nat) : CallTrace (Option (List Nat)) :=
  match rhr_check reg_addr reg_nb with
  | some msg => ⟨.raised msg, st, none⟩
  | none =>
    let st1 : Client := { st with isread := true, unit_id := unit_id }
    let tx_pdu := rhr_pdu reg_addr.toNat reg_nb.toNat
    let st3 : Client := { req_init st1 with transaction_id := new_tid }
    let tx_frame := mbap new_tid unit_id tx_pdu
    match recv_pdu unit_id new_tid response 3 with
    | .error e => ⟨.returned none, req_except_handler st3 e, some tx_frame⟩
    | .ok rx_pdu =>
      let byte_count := rx_pdu.getD 1 0
      let f_regs := rx_pdu.drop 2
      if byte_count < 2 * reg_nb.toNat ∨ byte_count ≠ f_regs.length then
        ⟨.returned none,
          req_except_handler st3 (.networkError MB_RECV_ERR ("rx byte count mismatch")),
          some tx_frame⟩
      else
        ⟨.returned (some ((List.range reg_nb.toNat).map fun i =>
            be16 (f_regs.getD (2 * i) 0) (f_regs.getD (2 * i + 1) 0))), st3, some tx_frame⟩

/-- Argument checks of write_multiple_registers (client.py:264-269). -/
def wmr_check (regs_addr : Int) (regs_value : List Int) : Option String :=
  if ¬(0 ≤ regs_addr ∧ regs_addr ≤ 0xffff) then
    some ("regs_addr out of range (valid from 0 to 65535)")
  else if ¬(1 ≤ regs_value.length ∧ regs_value.length ≤ 123) then
    some ("number of registers out of range (valid from 1 to 123)")
  else if 0x10000 < regs_addr + (regs_value.length : Int) then
    some ("write after end of modbus address space")
  else none

/-- Range check applied to each register value while packing
(client.py:277-282). -/
def regInRange (r : Int) : Bool := decide (0 ≤ r) && decide (r ≤ 0xffff)

/-- Register values packed as consecutive big-endian 16-bit words
(client.py:275-282). -/
def packRegs : List Int → List Nat
  | [] => []
  | r :: rest => u16be r.toNat ++ packRegs rest

/-- write_multiple_registers (client.py:253-297). -/
def write_multiple_registers (st : Client) (regs_addr : Int) (regs_value : List Int)
    (unit_id new_tid : Nat) (response : List Nat) : CallTrace Bool :=
  match wmr_check regs_addr regs_value with
  | some msg => ⟨.raised msg, st, none⟩
  | none =>
    let st1 : Client := { st with isread := false, unit_id := unit_id }
    if ¬ regs_value.all regInRange then
      ⟨.raised ("regs_value list contains out of range values"), st1, none⟩
    else
      let pdu_regs_part := packRegs regs_value
      let tx_pdu := WRITE_MULTIPLE_REGISTERS :: u16be regs_addr.toNat ++
        u16be regs_value.length ++ pdu_regs_part.length :: pdu_regs_part
      let st3 : Client := { req_init st1 with transaction_id := new_tid }
      let tx_frame := mbap new_tid unit_id tx_pdu
      match recv_pdu unit_id new_tid response 5 with
      | .error e => ⟨.returned false, req_except_handler st3 e, some tx_frame⟩
      | .ok rx_pdu =>
        let resp_write_addr := be16 (rx_pdu.getD 1 0) (rx_pdu.getD 2 0)
        let resp_write_count := be16 (rx_pdu.getD 3 0) (rx_pdu.getD 4 0)
        ⟨.returned (decide (resp_write_addr = regs_addr.toNat) &&
            decide (resp_write_count = regs_value.length)), st3, some tx_frame⟩

/-- Argument checks of write_read_multiple_registers (client.py:313-322),
in the order of the check list of the source. -/
def wrmr_check (write_addr : Int) (write_values : List Int) (read_addr read_nb : Int) :
    Option String :=
  if ¬(0 ≤ write_addr ∧ write_addr ≤ 0xffff) then
    some ("write_addr out of range (valid from 0 to 65535)")
  else if ¬(1 ≤ write_values.length ∧ write_values.length ≤ 121) then
    some ("number of registers out of range (valid from 1 to 121)")
  else if 0x10000 < write_addr + (write_values.length : Int) then
    some ("write after end of modbus address space")
  else if ¬(0 ≤ read_addr ∧ read_addr ≤ 0xffff) then
    some ("read_addr out of range (valid from 0 to 65535)")
  else if ¬(1 ≤ read_nb ∧ read_nb ≤ 125) then
    some ("read_nb out of range (valid from 1 to 125)")
  else if 0x10000 < read_addr + read_nb then
    some ("read after end of modbus address space")
  else none

/-- write_read_multiple_registers (client.py:299-359): takes no unit id
parameter and never assigns the attribute. -/
def write_read_multiple_registers (st : Client) (write_addr : Int) (write_values : List Int)
    (read_addr read_nb : Int) (new_tid : Nat) (response : List Nat) :
    CallTrace (Option (List Nat)) :=
  match wrmr_check write_addr write_values read_addr read_nb with
  | some msg => ⟨.raised msg, st, none⟩
  | none =>
    if ¬ write_values.all regInRange then
      ⟨.raised ("write_values list contains out of range values"), st, none⟩
    else
      let pdu_regs_part := packRegs write_values
      let tx_pdu := WRITE_READ_MULTIPLE_REGISTERS :: u16be read_addr.toNat ++
        u16be read_nb.toNat ++ u16be write_addr.toNat ++ u16be write_values.length ++
        pdu_regs_part.length :: pdu_regs_part
      let st3 : Client := { req_init st with transaction_id := new_tid }
      let tx_frame := mbap new_tid st.unit_id tx_pdu
      match recv_pdu st.unit_id new_tid response 4 with
      | .error e => ⟨.returned none, req_except_handler st3 e, some tx_frame⟩
      | .ok rx_pdu =>
        let byte_count := rx_pdu.getD 1 0
        let f_regs := rx_pdu.drop 2
        if byte_count < 2 * read_nb.toNat ∨ byte_count ≠ f_regs.length then
          ⟨.returned none,
            req_except_handler st3 (.networkError MB_RECV_ERR ("rx byte count mismatch")),
            some tx_frame⟩
        else
          ⟨.returned (some ((List.range read_nb.toNat).map fun i =>
              be16 (f_regs.getD (2 * i) 0) (f_regs.getD (2 * i + 1) 0))), st3, some tx_frame⟩

/-- Bit-pattern core of getobservation (read_sensor.py:12-13): the two
registers are packed low register first (native little endian) and read
back as one 32-bit word; that word is the IEEE-754 bit pattern of the
float the script returns, so the float is modelled by its pattern. -/
def regsToBits32 (reg1 reg2 : Nat) : Nat := reg1 + 65536 * reg2

/-- Float-encode direction (nutsupply.py:34-35): a 32-bit float is packed
(native little endian) and split into two 16-bit registers, low register
first; as in the decode direction, the float is modelled by its IEEE-754
bit pattern `w`. -/
def bits32ToRegs (w : Nat) : Nat × Nat := (w % 65536, w / 65536)

/-- getremaintime (retractable.py:45-46): two registers reinterpreted as a
signed 32-bit integer, low register first. -/
def getremaintime (reg1 reg2 : Nat) : Int :=
  let w := reg1 + 65536 * reg2
  if w < 2147483648 then (w : Int) else (w : Int) - 4294967296

/-- Signed 32-bit value split into two registers, low register first
(retractable.py:32). -/
def int32ToRegs (sec : Int) : Nat × Nat :=
  let w := (sec % 4294967296).toNat
  (w % 65536, w / 65536)

/-- Decoder written from the words of the spec, for refinement comparison:
register bytes decoded as consecutive big-endian 16-bit values in address
order. -/
def specBeWords : List Nat → List Nat
  | a :: b :: rest => be16 a b :: specBeWords rest
  | _ => []

/-- Client state right after the constructor (client.py:62-80): unit id 2,
no error recorded. -/
def initClient : Client := ⟨2, MB_NO_ERR, EXP_NONE, 0, true⟩

end SBAPI

namespace SBAPI

/-- The argument validation of read_holding_registers succeeds exactly on
the contract range. -/
lemma rhr_check_eq_none (a n : Int) :
    rhr_check a n = none ↔ (0 ≤ a ∧ a ≤ 65535 ∧ 1 ≤ n ∧ n ≤ 125 ∧ a + n ≤ 65536) := by
  unfold rhr_check
  split_ifs with h1 h2 h3 <;> simp <;> omega

/-- Claim C6: for every transactionId in [0,65535], unitId in [0,255] and
payload of length < 255, the encoder produces the 7-byte big-endian MBAP
header (transactionId, protocolId 0, length = payload length + 1, unitId)
followed by the payload, and the MBAP decode stage of the receiver, with
the matching expected unit id, recovers the original payload bit-exact. -/
theorem mbap_roundtrip (tid uid : Nat) (payload : List Nat)
    (_htid : tid ≤ 65535) (_huid : uid ≤ 255) (hlen : payload.length < 255) :
    (mbap tid uid payload).take 7 =
      [tid / 256, tid % 256, 0, 0, (payload.length + 1) / 256,
        (payload.length + 1) % 256, uid] ∧
    (mbap tid uid payload).drop 7 = payload ∧
    recv_frame uid tid (mbap tid uid payload) = .ok payload := by
  have hdiv : (payload.length + 1) / 256 = 0 := Nat.div_eq_of_lt (by omega)
  have hmod : (payload.length + 1) % 256 = payload.length + 1 := Nat.mod_eq_of_lt (by omega)
  refine ⟨by simp [mbap, u16be], by simp [mbap, u16be], ?_⟩
  simp only [mbap, u16be, List.cons_append, List.nil_append]
  unfold recv_frame recv
  rw [if_neg (by simp)]
  simp only [List.take_succ_cons, List.take_zero, List.drop_succ_cons, List.drop_zero,
    List.getD_cons_succ, List.getD_cons_zero]
  rw [if_neg (by simp [be16, hdiv, hmod]; omega)]
  rw [hdiv, hmod]
  simp [be16]

/-- The witness instantiates the round trip at transactionId 65535, unit
id 255 and the payload [1, 2, 3]. -/
theorem mbap_roundtrip_witness :
    (65535 : Nat) ≤ 65535 ∧ (255 : Nat) ≤ 255 ∧ [1, 2, 3].length < 255 ∧
      recv_frame 255 65535 (mbap 65535 255 [1, 2, 3]) = .ok [1, 2, 3] :=
  ⟨by decide, by decide, by decide,
    (mbap_roundtrip 65535 255 [1, 2, 3] (by decide) (by decide) (by decide)).2.2⟩

/-- Claim C8: the receiver deliberately skips comparing the received
transaction id to the one that was sent: two received frames that agree
outside the transaction-id bytes decode to the same result, for any
stored transaction ids. -/
theorem transaction_id_ignored (u t1 t2 a b c d minlen : Nat) (rest : List Nat) :
    recv_pdu u t1 (a :: b :: rest) minlen = recv_pdu u t2 (c :: d :: rest) minlen := by
  have h : recv_frame u t1 (a :: b :: rest) = recv_frame u t2 (c :: d :: rest) := by
    by_cases hr : rest.length < 5
    · have e1 : recv (a :: b :: rest) 7 = .error (.networkError MB_RECV_ERR ("recv error")) := by
        unfold recv
        rw [if_pos (by simp; omega)]
      have e2 : recv (c :: d :: rest) 7 = .error (.networkError MB_RECV_ERR ("recv error")) := by
        unfold recv
        rw [if_pos (by simp; omega)]
      unfold recv_frame
      rw [e1, e2]
    · have h7a : ¬ (a :: b :: rest).length < 7 := by
        simp only [List.length_cons]
        omega
      have h7c : ¬ (c :: d :: rest).length < 7 := by
        simp only [List.length_cons]
        omega
      have e1 : recv (a :: b :: rest) 7 = .ok (a :: b :: rest.take 5, rest.drop 5) := by
        unfold recv
        rw [if_neg h7a]
        simp
      have e2 : recv (c :: d :: rest) 7 = .ok (c :: d :: rest.take 5, rest.drop 5) := by
        unfold recv
        rw [if_neg h7c]
        simp
      unfold recv_frame
      rw [e1, e2]
      simp
  unfold recv_pdu
  rw [h]

/-- Claim C9: packing a 32-bit quantity into two consecutive registers,
low register first, is a bit-exact round trip in both directions: for the
raw 32-bit pattern (the IEEE-754 pattern of the floats decoded by
getobservation in read_sensor.py:12-13 and encoded in nutsupply.py:34-35)
and for the signed 32-bit integer helpers of retractable.py. -/
theorem composite32_roundtrip :
    (∀ w : Nat, w < 4294967296 →
      regsToBits32 (bits32ToRegs w).1 (bits32ToRegs w).2 = w) ∧
    (∀ r1 r2 : Nat, r1 < 65536 → r2 < 65536 →
      bits32ToRegs (regsToBits32 r1 r2) = (r1, r2)) ∧
    (∀ i : Int, -2147483648 ≤ i → i < 2147483648 →
      getremaintime (int32ToRegs i).1 (int32ToRegs i).2 = i) ∧
    (∀ r1 r2 : Nat, r1 < 65536 → r2 < 65536 →
      int32ToRegs (getremaintime r1 r2) = (r1, r2)) := by
  refine ⟨?_, ?_, ?_, ?_⟩
  · intro w hw
    simp only [regsToBits32, bits32ToRegs]
    omega
  · intro r1 r2 h1 h2
    simp only [regsToBits32, bits32ToRegs, Prod.mk.injEq]
    omega
  · intro i h1 h2
    simp only [getremaintime, int32ToRegs]
    split <;> omega
  · intro r1 r2 h1 h2
    simp only [getremaintime, int32ToRegs, Prod.mk.injEq]
    split <;> omega

/-- The witness evaluates the round trip on the IEEE-754 single patterns
of 0.0 (0x00000000), -123.45 (0xC2F6E666) and 1.0e6 (0x49742400), and on
the signed value -10. -/
theorem composite32_roundtrip_witness :
    regsToBits32 (bits32ToRegs 0).1 (bits32ToRegs 0).2 = 0 ∧
    regsToBits32 (bits32ToRegs 0xC2F6E666).1 (bits32ToRegs 0xC2F6E666).2 = 0xC2F6E666 ∧
    regsToBits32 (bits32ToRegs 0x49742400).1 (bits32ToRegs 0x49742400).2 = 0x49742400 ∧
    getremaintime (int32ToRegs (-10)).1 (int32ToRegs (-10)).2 = -10 :=
  ⟨composite32_roundtrip.1 0 (by decide),
    composite32_roundtrip.1 0xC2F6E666 (by decide),
    composite32_roundtrip.1 0x49742400 (by decide),
    composite32_roundtrip.2.2.1 (-10) (by decide) (by decide)⟩

end SBAPI

namespace SBAPI

lemma specBeWords_cons (a b : Nat) (l : List Nat) :
    specBeWords (a :: b :: l) = be16 a b :: specBeWords l := rfl

lemma specBeWords_length : ∀ l : List Nat, (specBeWords l).length = l.length / 2
  | [] => by simp [specBeWords]
  | [a] => by simp [specBeWords]
  | a :: b :: t => by
    have ih := specBeWords_length t
    simp only [specBeWords_cons, List.length_cons, ih]
    omega

/-- The register-extraction loop of the client equals the decode the spec
describes: consecutive big-endian 16-bit words of the byte prefix. -/
lemma regMap_eq_specBeWords : ∀ (k : Nat) (l : List Nat), 2 * k ≤ l.length →
    (List.range k).map (fun i => be16 (l.getD (2 * i) 0) (l.getD (2 * i + 1) 0)) =
      specBeWords (l.take (2 * k))
  | 0, l, _ => by simp [specBeWords]
  | k + 1, [], h => by simp at h
  | k + 1, [a], h => by simp at h; omega
  | k + 1, a :: b :: t, h => by
    have h2 : 2 * k ≤ t.length := by
      simp only [List.length_cons] at h
      omega
    have ih := regMap_eq_specBeWords k t h2
    rw [List.range_succ_eq_map, List.map_cons, List.map_map]
    have e1 : 2 * (k + 1) = 2 * k + 1 + 1 := by omega
    rw [e1, List.take_succ_cons, List.take_succ_cons, specBeWords_cons]
    have e2 : ∀ i ∈ List.range k,
        ((fun i => be16 ((a :: b :: t).getD (2 * i) 0) ((a :: b :: t).getD (2 * i + 1) 0)) ∘
          Nat.succ) i = (fun i => be16 (t.getD (2 * i) 0) (t.getD (2 * i + 1) 0)) i := by
      intro i _
      have e3 : 2 * Nat.succ i = 2 * i + 1 + 1 := by omega
      have e4 : 2 * Nat.succ i + 1 = 2 * i + 1 + 1 + 1 := by omega
      simp only [Function.comp_apply, e3, e4, List.getD_cons_succ, List.getD_cons_zero]
    rw [List.map_congr_left e2, ih]
    simp

end SBAPI

namespace SBAPI

/-- Claim C2: read_holding_registers raises a ValueError, before anything
is encoded or sent, exactly when the address is outside [0,65535], the
count outside [1,125], or address + count exceeds 65536; otherwise the
call is accepted and the PDU handed to the transport is exactly the five
bytes 0x03, addrHi, addrLo, countHi, countLo. -/
theorem rhr_validation (st : Client) (a n : Int) (u tid : Nat) (resp : List Nat) :
    ((∃ msg, (read_holding_registers st a n u tid resp).result = .raised msg) ↔
      ¬(0 ≤ a ∧ a ≤ 65535 ∧ 1 ≤ n ∧ n ≤ 125 ∧ a + n ≤ 65536)) ∧
    (¬(0 ≤ a ∧ a ≤ 65535 ∧ 1 ≤ n ∧ n ≤ 125 ∧ a + n ≤ 65536) →
      (read_holding_registers st a n u tid resp).sent = none) ∧
    ((0 ≤ a ∧ a ≤ 65535 ∧ 1 ≤ n ∧ n ≤ 125 ∧ a + n ≤ 65536) →
      (read_holding_registers st a n u tid resp).sent =
        some (mbap tid u [3, a.toNat / 256, a.toNat % 256, n.toNat / 256, n.toNat % 256])) := by
  by_cases hv : 0 ≤ a ∧ a ≤ 65535 ∧ 1 ≤ n ∧ n ≤ 125 ∧ a + n ≤ 65536
  · have hc : rhr_check a n = none := (rhr_check_eq_none a n).mpr hv
    refine ⟨⟨fun hex => ?_, fun h => absurd hv h⟩, fun h => absurd hv h, fun _ => ?_⟩
    · exfalso
      obtain ⟨msg, hmsg⟩ := hex
      simp only [read_holding_registers, hc] at hmsg
      split at hmsg
      · simp at hmsg
      · split at hmsg <;> simp at hmsg
    · simp only [read_holding_registers, hc]
      split
      · simp [rhr_pdu, u16be, READ_HOLDING_REGISTERS]
      · split <;> simp [rhr_pdu, u16be, READ_HOLDING_REGISTERS]
  · obtain ⟨msg, hc⟩ : ∃ msg, rhr_check a n = some msg := by
      cases hcc : rhr_check a n with
      | none => exact absurd ((rhr_check_eq_none a n).mp hcc) hv
      | some m => exact ⟨m, rfl⟩
    refine ⟨?_, fun _ => ?_, fun h => absurd h hv⟩
    · simp only [read_holding_registers, hc]
      exact iff_of_true ⟨msg, rfl⟩ hv
    · simp [read_holding_registers, hc]

/-- The witness checks the boundary: address 65535 with count 1 is
accepted (and sends payload 03 FF FF 00 01), address 65535 with count 2
is rejected. -/
theorem rhr_validation_witness :
    ¬(∃ msg, (read_holding_registers initClient 65535 1 2 0 []).result = .raised msg) ∧
    (∃ msg, (read_holding_registers initClient 65535 2 2 0 []).result = .raised msg) ∧
    (read_holding_registers initClient 65535 1 2 0 []).sent =
      some (mbap 0 2 [3, 255, 255, 0, 1]) := by
  refine ⟨?_, ?_, ?_⟩
  · intro h
    exact (rhr_validation initClient 65535 1 2 0 []).1.mp h (by decide)
  · exact (rhr_validation initClient 65535 2 2 0 []).1.mpr (by decide)
  · have h := (rhr_validation initClient 65535 1 2 0 []).2.2 (by decide)
    rw [h]
    decide

/-- Claim C3: whenever the byte-count check accepts a read response, the
returned value is exactly the list of count big-endian 16-bit words of
the register bytes, in address order. -/
theorem rhr_decode (st : Client) (a n : Int) (u tid : Nat) (resp pdu : List Nat)
    (hc : rhr_check a n = none) (hr : recv_pdu u tid resp 3 = .ok pdu)
    (hbc : ¬(pdu.getD 1 0 < 2 * n.toNat ∨ pdu.getD 1 0 ≠ (pdu.drop 2).length)) :
    (read_holding_registers st a n u tid resp).result =
      .returned (some (specBeWords ((pdu.drop 2).take (2 * n.toNat)))) ∧
    (specBeWords ((pdu.drop 2).take (2 * n.toNat))).length = n.toNat := by
  have hlen : 2 * n.toNat ≤ (pdu.drop 2).length := by
    push_neg at hbc
    omega
  constructor
  · simp only [read_holding_registers, hc, hr]
    rw [if_neg hbc]
    simp only [regMap_eq_specBeWords n.toNat (pdu.drop 2) hlen]
  · rw [specBeWords_length, List.length_take]
    omega

/-- The witness replays the spec example: a 3-register read answered with
payload 03 06 00 01 00 00 00 02 decodes to [1, 0, 2]. -/
theorem rhr_decode_witness :
    (read_holding_registers initClient 0 3 2 0
      [0, 0, 0, 0, 0, 9, 2, 3, 6, 0, 1, 0, 0, 0, 2]).result = .returned (some [1, 0, 2]) := by
  have h := (rhr_decode initClient 0 3 2 0 [0, 0, 0, 0, 0, 9, 2, 3, 6, 0, 1, 0, 0, 0, 2]
    [3, 6, 0, 1, 0, 0, 0, 2] (by decide) (by decide) (by decide)).1
  rw [h]
  decide

/-- Claim C1 counterexample: with count 1, a response declaring byte count
4 and carrying four register bytes has byteCount ≠ 2·count, so the claim
demands a ByteCountMismatch failure; the call instead succeeds, returns
the first register and records no error. -/
theorem rhr_byte_count_counterexample :
    (read_holding_registers initClient 0 1 2 0
      [0, 0, 0, 0, 0, 7, 2, 3, 4, 0, 7, 0, 9]).result = .returned (some [7]) ∧
    (read_holding_registers initClient 0 1 2 0
      [0, 0, 0, 0, 0, 7, 2, 3, 4, 0, 7, 0, 9]).client.last_error = MB_NO_ERR ∧
    (4 : Nat) ≠ 2 * 1 := by decide

/-- Claim C1 as amended: the call fails with the receive-error marker (a
NetworkError, the failure sentinel is returned) exactly when the declared
byte count is smaller than 2·count or differs from the number of register
bytes actually present. -/
theorem rhr_byte_count_check (st : Client) (a n : Int) (u tid : Nat) (resp pdu : List Nat)
    (hc : rhr_check a n = none) (hr : recv_pdu u tid resp 3 = .ok pdu) :
    ((read_holding_registers st a n u tid resp).result = .returned none ∧
      (read_holding_registers st a n u tid resp).client.last_error = MB_RECV_ERR) ↔
    (pdu.getD 1 0 < 2 * n.toNat ∨ pdu.getD 1 0 ≠ (pdu.drop 2).length) := by
  simp only [read_holding_registers, hc, hr]
  by_cases hbc : pdu.getD 1 0 < 2 * n.toNat ∨ pdu.getD 1 0 ≠ (pdu.drop 2).length
  · rw [if_pos hbc]
    exact iff_of_true ⟨rfl, by simp [req_except_handler]⟩ hbc
  · rw [if_neg hbc]
    refine iff_of_false (fun h => ?_) hbc
    simpa using h.1

/-- The witness replays the spec instance: byte count 4 declared while
only two register bytes follow (count 2) yields the recorded receive
error and the failure sentinel. -/
theorem rhr_byte_count_check_witness :
    (read_holding_registers initClient 0 2 2 0
      [0, 0, 0, 0, 0, 5, 2, 3, 4, 0, 7]).result = .returned none ∧
    (read_holding_registers initClient 0 2 2 0
      [0, 0, 0, 0, 0, 5, 2, 3, 4, 0, 7]).client.last_error = MB_RECV_ERR :=
  (rhr_byte_count_check initClient 0 2 2 0 [0, 0, 0, 0, 0, 5, 2, 3, 4, 0, 7] [3, 4, 0, 7]
    (by decide) (by decide)).mpr (by decide)

end SBAPI

namespace SBAPI

/-- Claim C4: on a response that passes the frame checks, the write
returns true exactly when the echoed address and the echoed register
count match the request, returns false (never raises) otherwise, and in
either case no error is recorded in the last-error state. -/
theorem wmr_echo_check (st : Client) (a : Int) (vs : List Int) (u tid : Nat)
    (resp pdu : List Nat) (hc : wmr_check a vs = none) (hall : vs.all regInRange = true)
    (hr : recv_pdu u tid resp 5 = .ok pdu) :
    ((write_multiple_registers st a vs u tid resp).result = .returned true ↔
      (be16 (pdu.getD 1 0) (pdu.getD 2 0) = a.toNat ∧
        be16 (pdu.getD 3 0) (pdu.getD 4 0) = vs.length)) ∧
    (write_multiple_registers st a vs u tid resp).result =
      .returned (decide (be16 (pdu.getD 1 0) (pdu.getD 2 0) = a.toNat) &&
        decide (be16 (pdu.getD 3 0) (pdu.getD 4 0) = vs.length)) ∧
    (write_multiple_registers st a vs u tid resp).client.last_error = MB_NO_ERR ∧
    (write_multiple_registers st a vs u tid resp).client.last_except = EXP_NONE := by
  have hred : (write_multiple_registers st a vs u tid resp).result =
      .returned (decide (be16 (pdu.getD 1 0) (pdu.getD 2 0) = a.toNat) &&
        decide (be16 (pdu.getD 3 0) (pdu.getD 4 0) = vs.length)) := by
    simp only [write_multiple_registers, hc, hr]
    rw [if_neg (by simp [hall])]
  refine ⟨?_, hred, ?_, ?_⟩
  · rw [hred]
    simp
  · simp only [write_multiple_registers, hc, hr]
    rw [if_neg (by simp [hall])]
    simp [req_init]
  · simp only [write_multiple_registers, hc, hr]
    rw [if_neg (by simp [hall])]
    simp [req_init]

/-- The witness answers a single-register write at address 5 with an echo
naming address 6: the call returns false and records no error. -/
theorem wmr_echo_check_witness :
    (write_multiple_registers initClient 5 [1] 2 0
      [0, 0, 0, 0, 0, 6, 2, 16, 0, 6, 0, 1]).result = .returned false ∧
    (write_multiple_registers initClient 5 [1] 2 0
      [0, 0, 0, 0, 0, 6, 2, 16, 0, 6, 0, 1]).client.last_error = MB_NO_ERR := by
  have h := (wmr_echo_check initClient 5 [1] 2 0 [0, 0, 0, 0, 0, 6, 2, 16, 0, 6, 0, 1]
    [16, 0, 6, 0, 1] (by decide) (by decide) (by decide))
  refine ⟨?_, h.2.2.1⟩
  rw [h.2.1]
  decide

/-- Claim C5: a decoded payload of length at least 2 whose function code
has bit 7 set is reported as a device exception: the receive stage fails
with the exception code taken from the second payload byte, the client
records the modbus-exception marker and that code, and the operation
returns its failure sentinel instead of raising. -/
theorem device_exception_report (st : Client) (a n : Int) (u tid : Nat)
    (resp pdu : List Nat) (hc : rhr_check a n = none)
    (hf : recv_frame u tid resp = .ok pdu) (hlen : 2 ≤ pdu.length)
    (hfc : 0x80 ≤ pdu.getD 0 0) :
    recv_pdu u tid resp 3 = .error (.modbusExcept (pdu.getD 1 0)) ∧
    (read_holding_registers st a n u tid resp).result = .returned none ∧
    (read_holding_registers st a n u tid resp).client.last_error = MB_EXCEPT_ERR ∧
    (read_holding_registers st a n u tid resp).client.last_except = pdu.getD 1 0 := by
  have hrp : recv_pdu u tid resp 3 = .error (.modbusExcept (pdu.getD 1 0)) := by
    simp only [recv_pdu, hf]
    rw [if_neg (by omega), if_pos hfc]
  refine ⟨hrp, ?_, ?_, ?_⟩ <;>
    simp [read_holding_registers, hc, hrp, req_except_handler]

/-- The witness answers a read with the exception frame 83 02: the client
ends with the modbus-exception marker, exception code 2, and the failure
sentinel. -/
theorem device_exception_report_witness :
    (read_holding_registers initClient 0 1 2 0
      [0, 0, 0, 0, 0, 3, 2, 131, 2]).result = .returned none ∧
    (read_holding_registers initClient 0 1 2 0
      [0, 0, 0, 0, 0, 3, 2, 131, 2]).client.last_error = MB_EXCEPT_ERR ∧
    (read_holding_registers initClient 0 1 2 0
      [0, 0, 0, 0, 0, 3, 2, 131, 2]).client.last_except = 2 := by
  have h := device_exception_report initClient 0 1 2 0 [0, 0, 0, 0, 0, 3, 2, 131, 2]
    [131, 2] (by decide) (by decide) (by decide) (by decide)
  exact ⟨h.2.1, h.2.2.1, h.2.2.2⟩

/-- Claim C7 counterexample: a client still carrying the receive-error
marker from a previous call makes a call with count 0; the call fails
argument validation and the last-error and last-exception state still
holds the previous values, not the reset ones, contradicting a reset
before validation. -/
theorem laststatus_reset_counterexample :
    (read_holding_registers ⟨2, MB_RECV_ERR, 3, 0, true⟩ 0 0 2 0 []).result =
      .raised ("reg_nb out of range (valid from 1 to 125)") ∧
    (read_holding_registers ⟨2, MB_RECV_ERR, 3, 0, true⟩ 0 0 2 0 []).client.last_error =
      MB_RECV_ERR ∧
    (read_holding_registers ⟨2, MB_RECV_ERR, 3, 0, true⟩ 0 0 2 0 []).client.last_except = 3 ∧
    MB_RECV_ERR ≠ MB_NO_ERR := by decide

/-- Claim C7 as amended: the last-error and last-exception state is reset
at the start of the request proper, after argument validation succeeds: a
call that fails validation leaves the client state (so also the previous
last-error values) untouched, and once validation passes the outcome of
the call is independent of the previous last-error state. -/
theorem laststatus_reset_after_validation (st : Client) (a n : Int) (u tid : Nat)
    (resp : List Nat) :
    (∀ msg, rhr_check a n = some msg →
      (read_holding_registers st a n u tid resp).client = st) ∧
    (rhr_check a n = none → ∀ e x,
      read_holding_registers { st with last_error := e, last_except := x } a n u tid resp =
        read_holding_registers st a n u tid resp) := by
  constructor
  · intro msg hmsg
    simp [read_holding_registers, hmsg]
  · intro hc e x
    simp only [read_holding_registers, hc]
    simp [req_init]

/-- The witness shows both halves on explicit clients: a rejected call
(address -1) keeps the stale state ⟨2, 4, 3, 0, true⟩; an accepted call
behaves as if the stale error fields had been 4 and 3 or 0 and 0 alike. -/
theorem laststatus_reset_after_validation_witness :
    (read_holding_registers ⟨2, 4, 3, 0, true⟩ (-1) 1 2 0 []).client = ⟨2, 4, 3, 0, true⟩ ∧
    read_holding_registers ⟨2, 4, 3, 0, true⟩ 0 1 2 0 [] =
      read_holding_registers ⟨2, 0, 0, 0, true⟩ 0 1 2 0 [] :=
  ⟨(laststatus_reset_after_validation ⟨2, 4, 3, 0, true⟩ (-1) 1 2 0 []).1
      ("reg_addr out of range (valid from 0 to 65535)") (by decide),
    (laststatus_reset_after_validation ⟨2, 0, 0, 0, true⟩ 0 1 2 0 []).2 (by decide) 4 3⟩

/-- Claim C10: a validated read or write call stores its unit-id argument
in the client state, where it persists after the call returns and serves
as the expected unit id of the decode (the outcome never depends on the
unit id held before the call); the combined write-read call takes no unit
id and leaves whatever the client last held. -/
theorem unit_id_side_effect (st : Client) (a n wa ra rn : Int) (vs wv : List Int)
    (u tid : Nat) (resp : List Nat) :
    (rhr_check a n = none →
      (read_holding_registers st a n u tid resp).client.unit_id = u) ∧
    (wmr_check a vs = none →
      (write_multiple_registers st a vs u tid resp).client.unit_id = u) ∧
    (write_read_multiple_registers st wa wv ra rn tid resp).client.unit_id = st.unit_id ∧
    (rhr_check a n = none → ∀ v : Nat,
      read_holding_registers { st with unit_id := v } a n u tid resp =
        read_holding_registers st a n u tid resp) := by
  refine ⟨fun hc => ?_, fun hc => ?_, ?_, fun hc v => ?_⟩
  · simp only [read_holding_registers, hc]
    split
    · rename_i e heq
      cases e <;> simp [req_except_handler, req_init]
    · split <;> (rename_i h; try cases h) <;> simp [req_except_handler, req_init]
  · simp only [write_multiple_registers, hc]
    split
    · simp
    · split
      · rename_i e heq
        cases e <;> simp [req_except_handler, req_init]
      · simp [req_init]
  · simp only [write_read_multiple_registers]
    split
    · simp
    · split
      · simp
      · split
        · rename_i e heq
          cases e <;> simp [req_except_handler, req_init]
        · split <;> simp [req_except_handler, req_init]
  · simp only [read_holding_registers, hc]

/-- The witness reads with unit id 9 on a client whose unit id was 2 and
finds 9 stored afterwards; the combined write-read call on a fresh client
leaves the constructor value 2 in place. -/
theorem unit_id_side_effect_witness :
    (read_holding_registers initClient 0 1 9 0 []).client.unit_id = 9 ∧
    (write_read_multiple_registers initClient 0 [1] 0 1 0 []).client.unit_id = 2 :=
  ⟨(unit_id_side_effect initClient 0 1 0 0 1 [1] [1] 9 0 []).1 (by decide),
    ((unit_id_side_effect initClient 0 1 0 0 1 [1] [1] 9 0 []).2.2.1).trans (by decide)⟩

end SBAPI
